import Mathlib

/-!
Shallow embedding of `src/main.rs`, a Bevy side-scrolling avoidance game.

Modelling conventions:
* `f32` scalars (positions, velocities, sizes, delta times) are modelled as
  exact rationals `ℚ`; every constant of the program (400, 1000, -4000, -100,
  30, 50, 1.0, 0.1, …) and every operation the claims exercise is exact in
  `f32` at these magnitudes, so no rounding is lost.
* The `usize` health field is a `Nat`; the unguarded `health.0 -= 1` of
  `detect_collision` is modelled with release-mode wrapping semantics
  (`usizeDec`), i.e. `0 - 1 = 2^64 - 1` (a debug build would panic there).
* Bevy ECS queries over a singleton player become a `Player` record; the
  obstacle query becomes a `List Obstacle` in spawn order.
* A frame runs the systems in the pipeline order the schedule realises:
  input (jump, crouch) → gravity → movement integration → spawn → move/reap
  → collision → health text → lifecycle check, gated on the current
  `GameState` exactly as the `run_if(in_state(..))` conditions gate them.
* `Timer` (Bevy repeating timer over integral-nanosecond `Duration`s) keeps
  an elapsed accumulator; on completion it wraps modulo the interval.
* The RNG is `WyRand` (bevy_prng), carried as its 64-bit state.
-/

namespace MyBevyGame

/-! ### Constants (from the `//region Constants` block) -/

def GAME_SPEED : ℚ := 400
def JUMP_FORCE : ℚ := 1000
def GRAVITY : ℚ := -4000
def PLAYER_X : ℚ := -300
def PLAYER_SIZE_X : ℚ := 30
def PLAYER_SIZE_Y : ℚ := 50
def SPAWN_INTERVAL : ℚ := 1
def GROUND_LEVEL : ℚ := -100
def GROUND_SIZE_X : ℚ := 800
def GROUND_EDGE : ℚ := GROUND_SIZE_X / 2
def OBSTACLE_SIZE_X : ℚ := 30
def OBSTACLE_SIZE_Y : ℚ := 30

/-! ### Data model -/

/-- The player entity: `Transform` (x fixed at spawn, y dynamic),
`Velocity` (only y is ever non-zero), `Sprite.custom_size` (mutable via
crouch), `OriginalSize`, and `Health(usize)`. -/
structure Player where
  posX : ℚ
  posY : ℚ
  velY : ℚ
  sizeX : ℚ
  sizeY : ℚ
  origX : ℚ
  origY : ℚ
  health : Nat
  deriving Repr, DecidableEq

/-- An obstacle entity: `Transform` plus its `Sprite.custom_size`
(always spawned as `OBSTACLE_SIZE`). -/
structure Obstacle where
  posX : ℚ
  posY : ℚ
  sizeX : ℚ
  sizeY : ℚ
  deriving Repr, DecidableEq

/-- The two-state lifecycle `enum GameState { InGame, GameOver }`. -/
inductive GameState where
  | InGame
  | GameOver
  deriving Repr, DecidableEq

/-- Decoded keyboard input: `KeyboardInput { state, key_code }` restricted to
the keys the program inspects. -/
inductive Key where
  | Space
  | ArrowDown
  | Other
  deriving Repr, DecidableEq

/-- One `KeyboardInput` event: `pressed = true` models
`ButtonState::Pressed`, `false` models `ButtonState::Released`. -/
structure KeyEvent where
  pressed : Bool
  key : Key
  deriving Repr, DecidableEq

/-- Bevy repeating `Timer`: fixed interval, elapsed accumulator. -/
structure Timer where
  interval : ℚ
  elapsed : ℚ
  deriving Repr, DecidableEq

/-- `Timer::tick(delta)` for a repeating timer: accumulate; report
completion when the accumulated time reaches the interval, wrapping the
accumulator modulo the interval (Bevy's `elapsed %= duration`). -/
def Timer.tick (t : Timer) (dt : ℚ) : Timer × Bool :=
  let total := t.elapsed + dt
  if t.interval ≤ total then
    ({ t with elapsed := total - t.interval * (⌊total / t.interval⌋ : ℚ) }, true)
  else
    ({ t with elapsed := total }, false)

/-! ### WyRand entropy source (bevy_prng / wyrand crate) -/

def WYRAND_ADD : Nat := 0xa0761d6478bd642f
def WYRAND_XOR : Nat := 0xe7037ed1a0b428db

/-- One WyRand step on the 64-bit state: returns (output u64, new state).
`state += A; t = u128(state) * u128(state ^ B); out = (t >> 64) ^ t` -/
def wyrandNext (state : Nat) : Nat × Nat :=
  let s := (state + WYRAND_ADD) % 2 ^ 64
  let t := s * (s ^^^ WYRAND_XOR)
  (((t / 2 ^ 64) ^^^ t) % 2 ^ 64, s)

/-- `RngCore::next_u32` for WyRand: the low 32 bits of the next u64. -/
def next_u32 (state : Nat) : Nat × Nat :=
  let (r, s) := wyrandNext state
  (r % 2 ^ 32, s)

/-- Wrapping decrement of a `usize` (release-mode semantics of the
unguarded `health.0 -= 1`; a debug build panics on underflow). -/
def usizeDec (h : Nat) : Nat :=
  (h + (2 ^ 64 - 1)) % 2 ^ 64

/-! ### The systems -/

/-- One event of the `jump` system's loop body: on a press of Space while
at or below ground level, set vertical velocity to `JUMP_FORCE`. -/
def jumpEvent (p : Player) (e : KeyEvent) : Player :=
  if e.pressed = true ∧ e.key = Key.Space ∧ p.posY ≤ GROUND_LEVEL then
    { p with velY := JUMP_FORCE }
  else p

/-- `fn jump`: drain all keyboard events of the frame. -/
def jump (events : List KeyEvent) (p : Player) : Player :=
  events.foldl jumpEvent p

/-- `fn apply_gravity`: `velocity.y += GRAVITY * dt`. -/
def apply_gravity (dt : ℚ) (p : Player) : Player :=
  { p with velY := p.velY + GRAVITY * dt }

/-- `fn player_movement`: integrate `y += v * dt`; if the result is at or
below ground level, clamp to ground level and zero the velocity. -/
def player_movement (dt : ℚ) (p : Player) : Player :=
  let y := p.posY + p.velY * dt
  if y ≤ GROUND_LEVEL then
    { p with posY := GROUND_LEVEL, velY := 0 }
  else
    { p with posY := y }

/-- One event of the `crouch` system's loop body: on ArrowDown press halve
the height (only if still above half the original height, width kept); on
ArrowDown release restore the original size. -/
def crouchEvent (p : Player) (e : KeyEvent) : Player :=
  if e.pressed = true ∧ e.key = Key.ArrowDown then
    let newHeight := p.origY / 2
    if newHeight < p.sizeY then { p with sizeY := newHeight } else p
  else if e.pressed = false ∧ e.key = Key.ArrowDown then
    { p with sizeX := p.origX, sizeY := p.origY }
  else p

/-- `fn crouch`: drain all keyboard events of the frame. -/
def crouch (events : List KeyEvent) (p : Player) : Player :=
  events.foldl crouchEvent p

/-- `fn spawn_obstacles`: tick the spawn timer; when it finished this
frame, spawn one obstacle at `x = GROUND_EDGE`,
`y = GROUND_LEVEL + (next_u32() % 50)`, size `OBSTACLE_SIZE`.
Returns (timer, rng state, optionally the spawned obstacle). -/
def spawn_obstacles (dt : ℚ) (timer : Timer) (rng : Nat) :
    Timer × Nat × Option Obstacle :=
  if (timer.tick dt).2 then
    ((timer.tick dt).1, (next_u32 rng).2,
      some { posX := GROUND_EDGE,
             posY := GROUND_LEVEL + (((next_u32 rng).1 % 50 : Nat) : ℚ),
             sizeX := OBSTACLE_SIZE_X, sizeY := OBSTACLE_SIZE_Y })
  else
    ((timer.tick dt).1, rng, none)

/-- The per-obstacle motion of `fn move_obstacles`:
`translation.x -= GAME_SPEED * dt`. -/
def move_obstacle (dt : ℚ) (o : Obstacle) : Obstacle :=
  { o with posX := o.posX - GAME_SPEED * dt }

/-- `fn move_obstacles`: move every live obstacle left, then despawn those
with `x < -GROUND_EDGE` (strict comparison, as in the source). -/
def move_obstacles (dt : ℚ) (os : List Obstacle) : List Obstacle :=
  (os.map (move_obstacle dt)).filter (fun o => decide (¬ o.posX < -GROUND_EDGE))

/-- The AABB overlap test of `fn detect_collision`, on the player's
current (possibly crouched) size and the obstacle's size. -/
def collides (p : Player) (o : Obstacle) : Bool :=
  decide (|p.posX - o.posX| ≤ p.sizeX / 2 + o.sizeX / 2) &&
  decide (|p.posY - o.posY| ≤ p.sizeY / 2 + o.sizeY / 2)

/-- `fn detect_collision`: walk the live obstacles in order; each
overlapping obstacle decrements health (`usize` subtraction, unguarded)
and is despawned. Returns the player and the surviving obstacles. -/
def detect_collision (p : Player) (os : List Obstacle) : Player × List Obstacle :=
  match os with
  | [] => (p, [])
  | o :: rest =>
    if collides p o then
      detect_collision { p with health := usizeDec p.health } rest
    else
      ((detect_collision p rest).1, o :: (detect_collision p rest).2)

/-- `fn render_health_info`: the health display string. -/
def render_health_info (h : Nat) : String :=
  "Health: " ++ toString h

/-- `fn check_health`: if health is 0, request the transition to
`GameOver`; otherwise leave the lifecycle state alone. -/
def check_health (health : Nat) (s : GameState) : GameState :=
  if health = 0 then GameState.GameOver else s

/-! ### The world and the frame pipeline -/

/-- The whole mutable world the systems share. `banner` is the presence of
the "GAME OVER" text spawned by `fn game_over` on entering `GameOver`. -/
structure World where
  player : Player
  obstacles : List Obstacle
  timer : Timer
  rng : Nat
  gameState : GameState
  banner : Bool
  healthText : String
  deriving Repr, DecidableEq

/-- One `Update` frame while in `InGame`: the systems registered under
`run_if(in_state(InGame))`, in pipeline order (input → physics → spawn →
move/reap → collision → display → lifecycle check). The banner appears
when the `GameOver` transition fires (`OnEnter(GameOver)` → `game_over`). -/
def inGameFrame (dt : ℚ) (events : List KeyEvent) (w : World) : World :=
  let p1 := crouch events (jump events w.player)
  let p2 := player_movement dt (apply_gravity dt p1)
  let sp := spawn_obstacles dt w.timer w.rng
  let obs := move_obstacles dt (w.obstacles ++ sp.2.2.toList)
  let pc := detect_collision p2 obs
  let s' := check_health pc.1.health w.gameState
  { player := pc.1, obstacles := pc.2, timer := sp.1, rng := sp.2.1,
    gameState := s',
    banner := if s' = GameState.GameOver then true else w.banner,
    healthText := render_health_info pc.1.health }

/-- One press event of the `restart_game` system's loop body: on a Space
press, reset lifecycle to `InGame`, health to 3, the health text, despawn
all obstacles and the "GAME OVER" text. -/
def restartEvent (w : World) (e : KeyEvent) : World :=
  if e.pressed = true ∧ e.key = Key.Space then
    { w with gameState := GameState.InGame,
             player := { w.player with health := 3 },
             healthText := "Health: 3",
             obstacles := [],
             banner := false }
  else w

/-- `fn restart_game`: drain all keyboard events of the frame (only runs
under `run_if(in_state(GameOver))`). -/
def restart_game (events : List KeyEvent) (w : World) : World :=
  events.foldl restartEvent w

/-- One whole `Update` frame: the schedule gates every gameplay system on
`InGame` and the restart system on `GameOver`. -/
def frame (dt : ℚ) (events : List KeyEvent) (w : World) : World :=
  match w.gameState with
  | GameState.InGame => inGameFrame dt events w
  | GameState.GameOver => restart_game events w

/-- `fn setup`: the initial player. -/
def initialPlayer : Player :=
  { posX := PLAYER_X, posY := GROUND_LEVEL, velY := 0,
    sizeX := PLAYER_SIZE_X, sizeY := PLAYER_SIZE_Y,
    origX := PLAYER_SIZE_X, origY := PLAYER_SIZE_Y, health := 3 }

/-- The world right after `Startup`: state `InGame`, the repeating spawn
timer fresh, no obstacles, the seeded WyRand state. -/
def initialWorld (seed : Nat) : World :=
  { player := initialPlayer, obstacles := [],
    timer := { interval := SPAWN_INTERVAL, elapsed := 0 },
    rng := seed % 2 ^ 64,
    gameState := GameState.InGame, banner := false,
    healthText := render_health_info 3 }

/-- Run the game from a seed over a list of frames, each a (delta time,
drained keyboard events) pair. -/
def run (seed : Nat) (frames : List (ℚ × List KeyEvent)) : World :=
  frames.foldl (fun w f => frame f.1 f.2 w) (initialWorld seed)

/-- The per-frame trace of world states (initial world included). -/
def runTrace (seed : Nat) (frames : List (ℚ × List KeyEvent)) : List World :=
  frames.scanl (fun w f => frame f.1 f.2 w) (initialWorld seed)

/-! ### Derived notions used by the statements -/

/-- One physics frame of the integrator: gravity, then position
integration with ground clamping. -/
def physicsFrame (p : Player) (dt : ℚ) : Player :=
  player_movement dt (apply_gravity dt p)

/-- Whether the frame's drained events contain a Space press (the restart
trigger). -/
def restartPressed (events : List KeyEvent) : Bool :=
  events.any (fun e => e.pressed && decide (e.key = Key.Space))

/-- The net effect of the restart resets on a world: lifecycle back to
`InGame`, health 3, health text reset, obstacles cleared, banner gone. -/
def applyReset (w : World) : World :=
  { w with gameState := GameState.InGame,
           player := { w.player with health := 3 },
           healthText := "Health: 3",
           obstacles := [],
           banner := false }

/-- The fresh spawn timer (interval 1.0, elapsed 0). -/
def timer0 : Timer :=
  { interval := SPAWN_INTERVAL, elapsed := 0 }

/-- The spawn timer after `n` ticks of a fixed 0.1 frame delta. -/
def tickN : Nat → Timer
  | 0 => timer0
  | n + 1 => ((tickN n).tick (1 / 10)).1

/-! ### Concrete instances for the evaluated statements -/

/-- A Space key press event. -/
def spacePress : KeyEvent := { pressed := true, key := Key.Space }

/-- The player of the spec's collision example: at `(PLAYER_X, -100)`,
size 30×50, full health. -/
def cPlayer3 : Player :=
  { posX := -300, posY := -100, velY := 0, sizeX := 30, sizeY := 50,
    origX := 30, origY := 50, health := 3 }

/-- The same player with health 1. -/
def cPlayerH1 : Player :=
  { cPlayer3 with health := 1 }

/-- An obstacle exactly on the player: `(-300, -100)`, size 30×30. -/
def cObstacleHit : Obstacle :=
  { posX := -300, posY := -100, sizeX := 30, sizeY := 30 }

/-- The spec's non-colliding obstacle: `(-400, -100)`, size 30×30. -/
def cObstacleMiss : Obstacle :=
  { posX := -400, posY := -100, sizeX := 30, sizeY := 30 }

/-- A freshly spawned obstacle at the right ground edge. -/
def cObstacle400 : Obstacle :=
  { posX := 400, posY := -100, sizeX := 30, sizeY := 30 }

/-- An obstacle far from the player (at x = 0). -/
def cObstacleFar : Obstacle :=
  { posX := 0, posY := -100, sizeX := 30, sizeY := 30 }

/-- A concrete `GameOver` world: dead player, one live obstacle, banner up. -/
def wOverC : World :=
  { player := { cPlayer3 with health := 0 }, obstacles := [cObstacleFar],
    timer := timer0, rng := 7, gameState := GameState.GameOver,
    banner := true, healthText := render_health_info 0 }

/-- A concrete `InGame` world: player at health 1, one far obstacle. -/
def wActiveC : World :=
  { player := cPlayerH1, obstacles := [cObstacleFar],
    timer := timer0, rng := 7, gameState := GameState.InGame,
    banner := false, healthText := render_health_info 1 }

/-! ### Helper lemmas -/

/-- Wrapping `usize` decrement agrees with truncated decrement on positive
in-range values. -/
theorem usizeDec_pos {h : Nat} (h1 : 0 < h) (h2 : h < 2 ^ 64) :
    usizeDec h = h - 1 := by
  unfold usizeDec
  omega

/-- A jump event either leaves the player alone or, when grounded, sets
the jump impulse. -/
theorem jumpEvent_eq (p : Player) (e : KeyEvent) :
    jumpEvent p e = p ∨
      (p.posY ≤ GROUND_LEVEL ∧ jumpEvent p e = { p with velY := JUMP_FORCE }) := by
  unfold jumpEvent
  split
  · next h => exact Or.inr ⟨h.2.2, rfl⟩
  · exact Or.inl rfl

/-- Draining jump events can only rewrite the vertical velocity. -/
theorem jump_shape (events : List KeyEvent) (p : Player) :
    ∃ v, jump events p = { p with velY := v } := by
  induction events generalizing p with
  | nil => exact ⟨p.velY, rfl⟩
  | cons e es ih =>
    have hstep : jump (e :: es) p = jump es (jumpEvent p e) := rfl
    rcases jumpEvent_eq p e with h | ⟨_, h⟩
    · rw [hstep, h]; exact ih p
    · rw [hstep, h]
      obtain ⟨v, hv⟩ := ih { p with velY := JUMP_FORCE }
      exact ⟨v, hv⟩

/-- A crouch event can only rewrite the sprite size. -/
theorem crouchEvent_eq (p : Player) (e : KeyEvent) :
    ∃ a b, crouchEvent p e = { p with sizeX := a, sizeY := b } := by
  unfold crouchEvent
  split
  · dsimp only
    split
    · exact ⟨p.sizeX, p.origY / 2, rfl⟩
    · exact ⟨p.sizeX, p.sizeY, rfl⟩
  · split
    · exact ⟨p.origX, p.origY, rfl⟩
    · exact ⟨p.sizeX, p.sizeY, rfl⟩

/-- Draining crouch events can only rewrite the sprite size. -/
theorem crouch_shape (events : List KeyEvent) (p : Player) :
    ∃ a b, crouch events p = { p with sizeX := a, sizeY := b } := by
  induction events generalizing p with
  | nil => exact ⟨p.sizeX, p.sizeY, rfl⟩
  | cons e es ih =>
    have hstep : crouch (e :: es) p = crouch es (crouchEvent p e) := rfl
    obtain ⟨a, b, hab⟩ := crouchEvent_eq p e
    rw [hstep, hab]
    obtain ⟨a', b', hab'⟩ := ih { p with sizeX := a, sizeY := b }
    exact ⟨a', b', hab'⟩

/-- The collision pass can only rewrite the player's health. -/
theorem detect_collision_shape (p : Player) (os : List Obstacle) :
    ∃ h, (detect_collision p os).1 = { p with health := h } := by
  induction os generalizing p with
  | nil => exact ⟨p.health, rfl⟩
  | cons o rest ih =>
    unfold detect_collision
    split
    · obtain ⟨h, hh⟩ := ih { p with health := usizeDec p.health }
      exact ⟨h, hh⟩
    · exact ih p

/-- Physics never leaves the player below ground level. -/
theorem physicsFrame_ground (p : Player) (dt : ℚ) :
    GROUND_LEVEL ≤ (physicsFrame p dt).posY := by
  unfold physicsFrame player_movement apply_gravity
  dsimp only
  split
  · simp
  · next h => simpa using le_of_lt (lt_of_not_le h)

/-- The reset effect is idempotent. -/
theorem applyReset_idem (w : World) : applyReset (applyReset w) = applyReset w := rfl

/-- A Space press event performs the reset. -/
theorem restartEvent_press (w : World) (e : KeyEvent)
    (h1 : e.pressed = true) (h2 : e.key = Key.Space) :
    restartEvent w e = applyReset w := by
  unfold restartEvent applyReset
  rw [if_pos ⟨h1, h2⟩]

/-- Any other event leaves the world alone. -/
theorem restartEvent_skip (w : World) (e : KeyEvent)
    (h : ¬(e.pressed = true ∧ e.key = Key.Space)) :
    restartEvent w e = w := by
  unfold restartEvent
  rw [if_neg h]

/-- `restart_game` is the reset exactly when some Space press was drained,
and the identity otherwise. -/
theorem restart_game_eq (events : List KeyEvent) (w : World) :
    restart_game events w =
      if restartPressed events = true then applyReset w else w := by
  induction events generalizing w with
  | nil => simp [restart_game, restartPressed]
  | cons e es ih =>
    have hstep : restart_game (e :: es) w = restart_game es (restartEvent w e) := rfl
    by_cases hc : e.pressed = true ∧ e.key = Key.Space
    · rw [hstep, restartEvent_press w e hc.1 hc.2, ih]
      have hp : restartPressed (e :: es) = true := by
        simp [restartPressed, List.any_cons, hc.1, hc.2]
      rw [hp, if_pos rfl]
      split
      · exact applyReset_idem w
      · rfl
    · rw [hstep, restartEvent_skip w e hc, ih]
      have hfalse : (e.pressed && decide (e.key = Key.Space)) = false := by
        rcases Bool.eq_false_or_eq_true e.pressed with hb | hb
        · have hk : ¬ e.key = Key.Space := fun hk => hc ⟨hb, hk⟩
          simp [hb, hk]
        · simp [hb]
      have hp : restartPressed (e :: es) = restartPressed es := by
        simp [restartPressed, List.any_cons, hfalse]
      rw [hp]

/-- The AABB test in propositional form. -/
theorem collides_iff (p : Player) (o : Obstacle) :
    collides p o = true ↔
      (|p.posX - o.posX| ≤ p.sizeX / 2 + o.sizeX / 2 ∧
       |p.posY - o.posY| ≤ p.sizeY / 2 + o.sizeY / 2) := by
  simp [collides]

/-- The AABB test never reads the health field. -/
theorem collides_health (p : Player) (h : Nat) (o : Obstacle) :
    collides { p with health := h } o = collides p o := rfl

/-- One unfolding step of the collision pass. -/
theorem detect_collision_cons (p : Player) (o : Obstacle) (os : List Obstacle) :
    detect_collision p (o :: os) =
      if collides p o then
        detect_collision { p with health := usizeDec p.health } os
      else
        ((detect_collision p os).1, o :: (detect_collision p os).2) := rfl

/-- The collision pass keeps exactly the non-overlapping obstacles (the
test does not read health, so the running decrements do not affect it). -/
theorem detect_collision_survivors (p : Player) (os : List Obstacle) :
    (detect_collision p os).2 = os.filter (fun o => !(collides p o)) := by
  induction os generalizing p with
  | nil => rfl
  | cons o rest ih =>
    rw [detect_collision_cons]
    by_cases hc : collides p o = true
    · rw [if_pos hc, ih]
      have hfix :
          rest.filter (fun o2 => !(collides { p with health := usizeDec p.health } o2)) =
            rest.filter (fun o2 => !(collides p o2)) :=
        List.filter_congr (fun a _ => by rw [collides_health])
      rw [hfix, List.filter_cons]
      simp [hc]
    · rw [if_neg hc]
      dsimp only
      rw [ih, List.filter_cons]
      simp only [Bool.not_eq_true] at hc
      simp [hc]

/-- Key constructor disequality, in rewrite form. -/
theorem key_space_arrow : (Key.Space = Key.ArrowDown) = False :=
  eq_false (fun h => Key.noConfusion h)

/-- Key constructor equality, in rewrite form. -/
theorem key_space_space : (Key.Space = Key.Space) = True := eq_true rfl

/-- Lifecycle constructor disequality, in rewrite form. -/
theorem inGame_ne_gameOver : (GameState.InGame = GameState.GameOver) = False :=
  eq_false (fun h => GameState.noConfusion h)

/-- The rendered health string at 3. -/
theorem healthText3 : "Health: " ++ toString (3 : Nat) = "Health: 3" := rfl

/-- Lifecycle constructor disequality, the other orientation. -/
theorem gameOver_ne_inGame : (GameState.GameOver = GameState.InGame) = False :=
  eq_false (fun h => GameState.noConfusion h)

/-- The lifecycle result of an `InGame` frame is the health check on the
post-collision player. -/
theorem inGameFrame_gameState (dt : ℚ) (ev : List KeyEvent) (w : World) :
    (inGameFrame dt ev w).gameState =
      check_health (inGameFrame dt ev w).player.health w.gameState := rfl

/-- While `InGame`, a frame runs exactly the gameplay pipeline. -/
theorem frame_inGame (dt : ℚ) (ev : List KeyEvent) (w : World)
    (hw : w.gameState = GameState.InGame) :
    frame dt ev w = inGameFrame dt ev w := by
  unfold frame
  rw [hw]

/-- While `GameOver`, a frame runs exactly the restart system. -/
theorem frame_gameOver (dt : ℚ) (ev : List KeyEvent) (w : World)
    (hw : w.gameState = GameState.GameOver) :
    frame dt ev w = restart_game ev w := by
  unfold frame
  rw [hw]

/-- The spawn timer after `n` fixed 0.1 ticks holds `(n mod 10) / 10`. -/
theorem tickN_eq (n : Nat) :
    tickN n = { interval := 1, elapsed := ((n % 10 : Nat) : ℚ) / 10 } := by
  induction n with
  | zero => norm_num [tickN, timer0, SPAWN_INTERVAL]
  | succ n ih =>
    have hstep : tickN (n + 1) = ((tickN n).tick (1 / 10)).1 := rfl
    rw [hstep, ih]
    unfold Timer.tick
    dsimp only
    by_cases h9 : n % 10 = 9
    · rw [h9]
      have hmod : (n + 1) % 10 = 0 := by omega
      rw [hmod]
      norm_num
    · have hk : ((n % 10 : Nat) : ℚ) ≤ 8 := by
        have : n % 10 ≤ 8 := by omega
        exact_mod_cast this
      have hmod : (n + 1) % 10 = n % 10 + 1 := by omega
      rw [if_neg (by linarith), hmod]
      push_cast
      ring_nf

/-- The fixed-0.1-delta timer finishes exactly every 10th tick. -/
theorem tickN_finished (n : Nat) :
    ((tickN n).tick (1 / 10)).2 = true ↔ (n + 1) % 10 = 0 := by
  rw [tickN_eq]
  unfold Timer.tick
  dsimp only
  by_cases h9 : n % 10 = 9
  · rw [h9, if_pos (by norm_num)]
    simp
    omega
  · have hk : ((n % 10 : Nat) : ℚ) ≤ 8 := by
      have : n % 10 ≤ 8 := by omega
      exact_mod_cast this
    rw [if_neg (by linarith)]
    simp
    omega

/-- A hit at positive in-range health is exactly a decrement by one. -/
theorem detect_collision_hit (p : Player) (o : Obstacle) (os : List Obstacle)
    (h1 : 0 < p.health) (h2 : p.health < 2 ^ 64) (hc : collides p o = true) :
    detect_collision p (o :: os) =
      detect_collision { p with health := p.health - 1 } os := by
  rw [detect_collision_cons, if_pos hc, usizeDec_pos h1 h2]

/-- A non-overlapping obstacle is skipped and kept. -/
theorem detect_collision_skip (p : Player) (o : Obstacle) (os : List Obstacle)
    (hc : collides p o = false) :
    detect_collision p (o :: os) =
      ((detect_collision p os).1, o :: (detect_collision p os).2) := by
  rw [detect_collision_cons, if_neg (by simp [hc])]

/-! ### The claims -/

/-- C4: over every physics frame (gravity into velocity, then position
integrated by velocity · dt), the player's `posY` never ends a frame below
`GROUND_LEVEL`; whenever the raw integration would land strictly below
ground level the position is clamped to `GROUND_LEVEL` and the vertical
velocity is exactly 0 right afterwards; and along any sequence of physics
frames a player starting at or above ground level stays at or above it. -/
theorem C4_ground_clamp :
    (∀ (p : Player) (dt : ℚ), GROUND_LEVEL ≤ (physicsFrame p dt).posY)
    ∧ (∀ (p : Player) (dt : ℚ),
        p.posY + (p.velY + GRAVITY * dt) * dt < GROUND_LEVEL →
        (physicsFrame p dt).posY = GROUND_LEVEL ∧ (physicsFrame p dt).velY = 0)
    ∧ (∀ (dts : List ℚ) (p : Player), GROUND_LEVEL ≤ p.posY →
        GROUND_LEVEL ≤ (dts.foldl physicsFrame p).posY) := by
  refine ⟨physicsFrame_ground, ?_, ?_⟩
  · intro p dt h
    unfold physicsFrame player_movement apply_gravity
    dsimp only
    rw [if_pos (le_of_lt h)]
    exact ⟨rfl, rfl⟩
  · intro dts
    induction dts with
    | nil => intro p h; simpa using h
    | cons d rest ih =>
      intro p _
      rw [List.foldl_cons]
      exact ih (physicsFrame p d) (physicsFrame_ground p d)

/-- C5: a jump press sets the vertical velocity to exactly `JUMP_FORCE`
(+1000) iff the player is at or below `GROUND_LEVEL` at the press; an
airborne press changes nothing (the jump system touches no other field);
and no other velocity source is positive: gravity only lowers the
velocity (for nonnegative dt), the ground clamp only zeroes it, and
crouch, collision and restart leave it untouched. -/
theorem C5_jump_gating :
    (∀ (p : Player) (e : KeyEvent),
        e.pressed = true → e.key = Key.Space → p.posY ≤ GROUND_LEVEL →
        jumpEvent p e = { p with velY := JUMP_FORCE })
    ∧ (∀ (p : Player) (e : KeyEvent), GROUND_LEVEL < p.posY → jumpEvent p e = p)
    ∧ (∀ (p : Player) (e : KeyEvent),
        jumpEvent p e = p ∨
          (p.posY ≤ GROUND_LEVEL ∧ jumpEvent p e = { p with velY := JUMP_FORCE }))
    ∧ (∀ (dt : ℚ) (p : Player), 0 ≤ dt → (apply_gravity dt p).velY ≤ p.velY)
    ∧ (∀ (dt : ℚ) (p : Player),
        (player_movement dt p).velY = p.velY ∨ (player_movement dt p).velY = 0)
    ∧ (∀ (ev : List KeyEvent) (p : Player), (crouch ev p).velY = p.velY)
    ∧ (∀ (p : Player) (os : List Obstacle), (detect_collision p os).1.velY = p.velY)
    ∧ (∀ (ev : List KeyEvent) (w : World),
        (restart_game ev w).player.velY = w.player.velY) := by
  refine ⟨?_, ?_, jumpEvent_eq, ?_, ?_, ?_, ?_, ?_⟩
  · intro p e h1 h2 h3
    unfold jumpEvent
    rw [if_pos ⟨h1, h2, h3⟩]
  · intro p e h
    unfold jumpEvent
    rw [if_neg fun hc => absurd hc.2.2 (not_le.mpr h)]
  · intro dt p hdt
    unfold apply_gravity GRAVITY
    dsimp only
    nlinarith
  · intro dt p
    unfold player_movement
    dsimp only
    split
    · exact Or.inr rfl
    · exact Or.inl rfl
  · intro ev p
    obtain ⟨a, b, hab⟩ := crouch_shape ev p
    rw [hab]
  · intro p os
    obtain ⟨h, hh⟩ := detect_collision_shape p os
    rw [hh]
  · intro ev w
    rw [restart_game_eq]
    split
    · rfl
    · rfl

/-- C3: the collision detector reports overlap iff the axis distances are
within the summed half-extents of the player's current (possibly
crouched) size and the obstacle's size; an overlapping obstacle costs
exactly one health point (at positive in-range health) and is removed, a
non-overlapping one is kept untouched; the survivors are exactly the
non-overlapping obstacles, so a removed obstacle can never hit again; and
the spec's two concrete examples evaluate as stated. -/
theorem C3_collision_aabb :
    (∀ (p : Player) (o : Obstacle), collides p o = true ↔
        (|p.posX - o.posX| ≤ p.sizeX / 2 + o.sizeX / 2 ∧
         |p.posY - o.posY| ≤ p.sizeY / 2 + o.sizeY / 2))
    ∧ (∀ (p : Player) (os : List Obstacle),
        (detect_collision p os).2 = os.filter (fun o => !(collides p o)))
    ∧ (∀ (p : Player) (o : Obstacle) (os : List Obstacle),
        0 < p.health → p.health < 2 ^ 64 → collides p o = true →
        detect_collision p (o :: os) =
          detect_collision { p with health := p.health - 1 } os)
    ∧ (∀ (p : Player) (o : Obstacle) (os : List Obstacle), collides p o = false →
        detect_collision p (o :: os) =
          ((detect_collision p os).1, o :: (detect_collision p os).2))
    ∧ collides cPlayer3 cObstacleHit = true
    ∧ detect_collision cPlayer3 [cObstacleHit] = ({ cPlayer3 with health := 2 }, [])
    ∧ collides cPlayer3 cObstacleMiss = false
    ∧ detect_collision cPlayer3 [cObstacleMiss] = (cPlayer3, [cObstacleMiss]) := by
  have hhit : collides cPlayer3 cObstacleHit = true := by
    norm_num [collides, cPlayer3, cObstacleHit, abs_le]
  have hmiss : collides cPlayer3 cObstacleMiss = false := by
    norm_num [collides, cPlayer3, cObstacleMiss, abs_le]
  refine ⟨collides_iff, detect_collision_survivors, detect_collision_hit,
    detect_collision_skip, hhit, ?_, hmiss, ?_⟩
  · rw [detect_collision_cons, if_pos hhit]
    have hdec : usizeDec cPlayer3.health = 2 := by decide
    rw [hdec]
    rfl
  · rw [detect_collision_skip _ _ _ hmiss]
    rfl

/-- C1 (code bug): the collision detector's decrement is unguarded. In a
state inside the claimed invariant (health 1, well within [0, 3]) with two
obstacles overlapping the player in the same frame, the pass decrements
twice and the `usize` health underflows: it wraps to 2^64 − 1 (release
semantics; a debug build panics), leaving health outside [0, 3] — the
decrement IS applied when health is already 0. -/
theorem C1_health_underflow :
    cPlayerH1.health = 1
    ∧ collides cPlayerH1 cObstacleHit = true
    ∧ (detect_collision cPlayerH1 [cObstacleHit, cObstacleHit]).1.health = 2 ^ 64 - 1
    ∧ ¬ (detect_collision cPlayerH1 [cObstacleHit, cObstacleHit]).1.health ≤ 3 := by
  have hcol : collides cPlayerH1 cObstacleHit = true := by
    norm_num [collides, cPlayerH1, cPlayer3, cObstacleHit, abs_le]
  have hcol0 :
      collides { cPlayerH1 with health := usizeDec cPlayerH1.health } cObstacleHit = true := by
    rw [collides_health]
    exact hcol
  have hstep : detect_collision cPlayerH1 [cObstacleHit, cObstacleHit] =
      ({ { cPlayerH1 with health := usizeDec cPlayerH1.health } with
          health := usizeDec ({ cPlayerH1 with health := usizeDec cPlayerH1.health }).health },
        []) := by
    rw [detect_collision_cons, if_pos hcol, detect_collision_cons, if_pos hcol0]
    rfl
  refine ⟨rfl, hcol, ?_, ?_⟩
  · rw [hstep]
    decide
  · rw [hstep]
    decide

/-- C2 counterexample: an obstacle spawned at x = 400 and moved twice at
400 u/s with dt = 1.0 sits at exactly −400 and is still in the live set —
it is NOT removed after 2 ticks, because the reaper's comparison
`x < −GROUND_EDGE` is strict. -/
theorem C2_boundary_counterexample :
    move_obstacles 1 (move_obstacles 1 [cObstacle400]) =
      [{ cObstacle400 with posX := -400 }]
    ∧ move_obstacles 1 (move_obstacles 1 [cObstacle400]) ≠ [] := by
  constructor
  · norm_num [move_obstacles, move_obstacle, cObstacle400, GAME_SPEED, GROUND_EDGE,
      GROUND_SIZE_X, List.filter]
  · norm_num [move_obstacles, move_obstacle, cObstacle400, GAME_SPEED, GROUND_EDGE,
      GROUND_SIZE_X, List.filter]

/-- C2 (amended): an obstacle survives a move/reap pass iff it is a moved
obstacle of the input whose new position is not strictly below −400, so an
obstacle at exactly −400 stays live; the obstacle created at x = 400 and
stepped with dt = 1.0 goes 400 → 0 → −400 and is removed on the third
tick, not the second. -/
theorem C2_reap_strict :
    (∀ (dt : ℚ) (os : List Obstacle) (o : Obstacle),
        o ∈ move_obstacles dt os ↔
          ((∃ o₀ ∈ os, move_obstacle dt o₀ = o) ∧ ¬ o.posX < -GROUND_EDGE))
    ∧ move_obstacles 1 [cObstacle400] = [{ cObstacle400 with posX := 0 }]
    ∧ move_obstacles 1 (move_obstacles 1 [cObstacle400]) =
        [{ cObstacle400 with posX := -400 }]
    ∧ move_obstacles 1 (move_obstacles 1 (move_obstacles 1 [cObstacle400])) = [] := by
  refine ⟨?_, ?_, ?_, ?_⟩
  · intro dt os o
    simp [move_obstacles, List.mem_filter, List.mem_map]
  · norm_num [move_obstacles, move_obstacle, cObstacle400, GAME_SPEED, GROUND_EDGE,
      GROUND_SIZE_X, List.filter]
  · norm_num [move_obstacles, move_obstacle, cObstacle400, GAME_SPEED, GROUND_EDGE,
      GROUND_SIZE_X, List.filter]
  · norm_num [move_obstacles, move_obstacle, cObstacle400, GAME_SPEED, GROUND_EDGE,
      GROUND_SIZE_X, List.filter]

/-- C6: ticking the spawn timer by the frame delta spawns exactly one
obstacle when (and only when) the timer completes, at x = `GROUND_EDGE`
(400), y = `GROUND_LEVEL` + (next random u32 mod 50), size 30×30 — at most
one per frame by construction even when the delta spans several intervals
(concretely, a 2.5 s delta on a fresh 1 s timer completes once and wraps
to 0.5); and with a fixed 0.1 delta the timer completes exactly on every
10th tick. -/
theorem C6_spawn_cadence :
    (∀ (dt : ℚ) (t : Timer) (rng : Nat), (t.tick dt).2 = true →
        spawn_obstacles dt t rng =
          ((t.tick dt).1, (next_u32 rng).2,
            some { posX := GROUND_EDGE,
                   posY := GROUND_LEVEL + (((next_u32 rng).1 % 50 : Nat) : ℚ),
                   sizeX := OBSTACLE_SIZE_X, sizeY := OBSTACLE_SIZE_Y }))
    ∧ (∀ (dt : ℚ) (t : Timer) (rng : Nat), (t.tick dt).2 = false →
        spawn_obstacles dt t rng = ((t.tick dt).1, rng, none))
    ∧ (∀ n : Nat, ((tickN n).tick (1 / 10)).2 = true ↔ (n + 1) % 10 = 0)
    ∧ (timer0.tick (5 / 2)).2 = true
    ∧ (timer0.tick (5 / 2)).1 = { interval := 1, elapsed := 1 / 2 } := by
  refine ⟨?_, ?_, tickN_finished, ?_, ?_⟩
  · intro dt t rng h
    unfold spawn_obstacles
    rw [if_pos h]
  · intro dt t rng h
    unfold spawn_obstacles
    rw [h]
    simp
  · norm_num [Timer.tick, timer0, SPAWN_INTERVAL]
  · norm_num [Timer.tick, timer0, SPAWN_INTERVAL]

/-- C7: a Space press while the state is `GameOver` sets health back to 3,
clears the obstacles, removes the banner and returns to `InGame`; while
`InGame` the frame runs only the gameplay pipeline (so the same key is
only a jump input, and input handling never touches health); concretely a
second press on the frame right after a restart — now `InGame` — changes
nothing at all (no double reset, health stays 3, nothing re-cleared, and
health is a `Nat`, so it cannot be negative), and a Space press in a
mid-play world resets nothing. -/
theorem C7_restart_contract :
    (∀ (dt : ℚ) (ev : List KeyEvent) (w : World),
        w.gameState = GameState.GameOver → restartPressed ev = true →
        frame dt ev w = applyReset w)
    ∧ (∀ (dt : ℚ) (ev : List KeyEvent) (w : World),
        w.gameState = GameState.InGame → frame dt ev w = inGameFrame dt ev w)
    ∧ (∀ (ev : List KeyEvent) (p : Player), (crouch ev (jump ev p)).health = p.health)
    ∧ frame 0 [spacePress] wOverC = applyReset wOverC
    ∧ frame 0 [spacePress] (frame 0 [spacePress] wOverC) = frame 0 [spacePress] wOverC
    ∧ (frame 0 [spacePress] (frame 0 [spacePress] wOverC)).player.health = 3
    ∧ frame 0 [spacePress] wActiveC = wActiveC := by
  have hpress : restartPressed [spacePress] = true := by
    simp [restartPressed, spacePress]
  have hreset : ∀ (dt : ℚ) (ev : List KeyEvent) (w : World),
      w.gameState = GameState.GameOver → restartPressed ev = true →
      frame dt ev w = applyReset w := by
    intro dt ev w hw hp
    rw [frame_gameOver dt ev w hw, restart_game_eq, if_pos hp]
  have hhealth : ∀ (ev : List KeyEvent) (p : Player),
      (crouch ev (jump ev p)).health = p.health := by
    intro ev p
    obtain ⟨v, hv⟩ := jump_shape ev p
    obtain ⟨a, b, hab⟩ := crouch_shape ev { p with velY := v }
    rw [hv, hab]
  have h1 : frame 0 [spacePress] wOverC = applyReset wOverC :=
    hreset 0 [spacePress] wOverC rfl hpress
  have h2 : frame 0 [spacePress] (applyReset wOverC) = applyReset wOverC := by
    norm_num [frame, inGameFrame, applyReset, wOverC, cPlayer3, spacePress, jump, jumpEvent,
      crouch, crouchEvent, apply_gravity, player_movement, spawn_obstacles, Timer.tick, timer0,
      move_obstacles, move_obstacle, detect_collision, collides, check_health, cObstacleFar,
      render_health_info, usizeDec, GROUND_LEVEL, JUMP_FORCE, GRAVITY, GAME_SPEED, GROUND_EDGE,
      GROUND_SIZE_X, SPAWN_INTERVAL, OBSTACLE_SIZE_X, OBSTACLE_SIZE_Y, abs_le, List.foldl,
      List.filter, key_space_arrow, key_space_space, inGame_ne_gameOver, healthText3]
  refine ⟨hreset, frame_inGame, hhealth, h1, ?_, ?_, ?_⟩
  · rw [h1, h2]
  · rw [h1, h2]
    rfl
  · norm_num [frame, inGameFrame, wActiveC, cPlayerH1, cPlayer3, spacePress, jump, jumpEvent,
      crouch, crouchEvent, apply_gravity, player_movement, spawn_obstacles, Timer.tick, timer0,
      move_obstacles, move_obstacle, detect_collision, collides, check_health, cObstacleFar,
      render_health_info, usizeDec, GROUND_LEVEL, JUMP_FORCE, GRAVITY, GAME_SPEED, GROUND_EDGE,
      GROUND_SIZE_X, SPAWN_INTERVAL, OBSTACLE_SIZE_X, OBSTACLE_SIZE_Y, abs_le, List.foldl,
      List.filter, key_space_arrow, key_space_space, inGame_ne_gameOver]

/-- C8: from `InGame` a frame transitions to `GameOver` iff the
post-frame health is 0 (the check runs after collision resolution, within
the frame), and to no state other than `InGame`/`GameOver`; from
`GameOver` the only transition is back to `InGame`, exactly on a restart
press (otherwise the world is completely unchanged); the initial state is
`InGame`. -/
theorem C8_lifecycle_transitions :
    (∀ (dt : ℚ) (ev : List KeyEvent) (w : World), w.gameState = GameState.InGame →
        ((frame dt ev w).gameState = GameState.GameOver ↔
          (frame dt ev w).player.health = 0))
    ∧ (∀ (dt : ℚ) (ev : List KeyEvent) (w : World), w.gameState = GameState.InGame →
        (frame dt ev w).gameState = GameState.InGame ∨
          (frame dt ev w).gameState = GameState.GameOver)
    ∧ (∀ (dt : ℚ) (ev : List KeyEvent) (w : World), w.gameState = GameState.GameOver →
        ((frame dt ev w).gameState = GameState.InGame ↔ restartPressed ev = true))
    ∧ (∀ (dt : ℚ) (ev : List KeyEvent) (w : World), w.gameState = GameState.GameOver →
        restartPressed ev = false → frame dt ev w = w)
    ∧ (∀ seed : Nat, (initialWorld seed).gameState = GameState.InGame) := by
  refine ⟨?_, ?_, ?_, ?_, fun seed => rfl⟩
  · intro dt ev w hw
    rw [frame_inGame dt ev w hw, inGameFrame_gameState, hw]
    unfold check_health
    by_cases h : (inGameFrame dt ev w).player.health = 0
    · rw [if_pos h]
      simp [h]
    · rw [if_neg h]
      simp [h, inGame_ne_gameOver]
  · intro dt ev w hw
    rw [frame_inGame dt ev w hw, inGameFrame_gameState, hw]
    unfold check_health
    split
    · exact Or.inr rfl
    · exact Or.inl rfl
  · intro dt ev w hw
    rw [frame_gameOver dt ev w hw, restart_game_eq]
    by_cases hp : restartPressed ev = true
    · rw [if_pos hp]
      simp [applyReset, hp]
    · rw [if_neg hp]
      simp [hw, hp, gameOver_ne_inGame]
  · intro dt ev w hw hp
    rw [frame_gameOver dt ev w hw, restart_game_eq, if_neg (by simp [hp])]

/-- C9: two runs of the simulation from equal seeds, fed equal sequences
of frame deltas and drained input events, produce identical per-frame
world traces — in particular identical obstacle sequences; obstacle
placement depends only on the seeded WyRand state threaded through the
run. -/
theorem C9_seed_determinism (seed1 seed2 : Nat)
    (frames1 frames2 : List (ℚ × List KeyEvent))
    (hs : seed1 = seed2) (hf : frames1 = frames2) :
    runTrace seed1 frames1 = runTrace seed2 frames2 ∧
    (runTrace seed1 frames1).map World.obstacles =
      (runTrace seed2 frames2).map World.obstacles := by
  subst hs
  subst hf
  exact ⟨rfl, rfl⟩

/-- Witness for C9 at concrete seeds and frame inputs. -/
theorem C9_seed_determinism_witness :
    runTrace 12345 [(1, []), (1 / 10, [spacePress])] =
      runTrace 12345 [(1, []), (1 / 10, [spacePress])] ∧
    (runTrace 12345 [(1, []), (1 / 10, [spacePress])]).map World.obstacles =
      (runTrace 12345 [(1, []), (1 / 10, [spacePress])]).map World.obstacles :=
  C9_seed_determinism 12345 12345 [(1, []), (1 / 10, [spacePress])]
    [(1, []), (1 / 10, [spacePress])] rfl rfl

/-- C10: a `GameOver` frame runs only the restart system, which either
leaves the world untouched or applies exactly the reset (lifecycle state,
health, health text, obstacles, banner); in both cases the player's
position, vertical velocity, current sprite size and original size, the
spawn timer (interval and elapsed accumulator) and the RNG state carry
over unchanged into the new session. -/
theorem C10_restart_frame_effect :
    (∀ (dt : ℚ) (ev : List KeyEvent) (w : World), w.gameState = GameState.GameOver →
        frame dt ev w = restart_game ev w)
    ∧ (∀ (ev : List KeyEvent) (w : World),
        restart_game ev w = w ∨ restart_game ev w = applyReset w)
    ∧ (∀ (ev : List KeyEvent) (w : World),
        (restart_game ev w).player.posX = w.player.posX ∧
        (restart_game ev w).player.posY = w.player.posY ∧
        (restart_game ev w).player.velY = w.player.velY ∧
        (restart_game ev w).player.sizeX = w.player.sizeX ∧
        (restart_game ev w).player.sizeY = w.player.sizeY ∧
        (restart_game ev w).player.origX = w.player.origX ∧
        (restart_game ev w).player.origY = w.player.origY ∧
        (restart_game ev w).timer = w.timer ∧
        (restart_game ev w).rng = w.rng) := by
  refine ⟨frame_gameOver, ?_, ?_⟩
  · intro ev w
    rw [restart_game_eq]
    split
    · exact Or.inr rfl
    · exact Or.inl rfl
  · intro ev w
    rw [restart_game_eq]
    split
    · exact ⟨rfl, rfl, rfl, rfl, rfl, rfl, rfl, rfl, rfl⟩
    · exact ⟨rfl, rfl, rfl, rfl, rfl, rfl, rfl, rfl, rfl⟩

end MyBevyGame
